import Mathlib

/-!
Shallow embedding of `src/main.py`, a FastAPI demo service with user
registration, login and a post feed over two in-memory dictionaries
(`users_db`, `posts_db`).  State is passed explicitly; Python's `uuid4`
id supply is modelled by a counter that yields an id not yet in use, and
`datetime.now()` by a `clock` field of the state that may change
arbitrarily between requests.
-/

namespace MITdemo

/-- `fastapi.HTTPException(status_code, detail)`. -/
structure HTTPException where
  status_code : Nat
  detail : String
deriving DecidableEq, Repr

/-- A value of `users_db[username]`: the dict `{"id": ..., "password": ...}`. -/
structure UserEntry where
  id : Nat
  password : String
deriving DecidableEq, Repr

/-- A value of `posts_db[post_id]`:
the dict `{"content": ..., "username": ..., "created_at": ...}`. -/
structure PostEntry where
  content : String
  username : String
  created_at : Nat
deriving DecidableEq, Repr

/-- The pydantic response model `UserInDB` returned by `register`. -/
structure UserInDB where
  id : Nat
  username : String
  password : String
deriving DecidableEq, Repr

/-- The pydantic model `Post` (the declared response model of the post
endpoints): content and username only. -/
structure Post where
  content : String
  username : String
deriving DecidableEq, Repr

/-- The dict actually returned by `create_post`:
`{**post.dict(), "created_at": created_at}`. -/
structure CreatePostResponse where
  content : String
  username : String
  created_at : Nat
deriving DecidableEq, Repr

/-- The whole mutable state of the process: the two module-level dicts,
plus the id supply (modelling `uuid4`) and the current time
(modelling `datetime.now()`). -/
structure AppState where
  users_db : List (String × UserEntry)
  posts_db : List (Nat × PostEntry)
  nextUuid : Nat
  clock : Nat
deriving DecidableEq, Repr

/-- Python dict lookup `d[k]` / `k in d` on an insertion-ordered
association list. -/
def lookupDb {α β : Type} [DecidableEq α] : List (α × β) → α → Option β
  | [], _ => none
  | (k, v) :: rest, key => if k = key then some v else lookupDb rest key

/-- `authenticate_user(username, password)`: returns the `UserInDB` when the
username is present and the stored password equals the supplied one,
otherwise raises `HTTPException(401, "Invalid credentials")`. -/
def authenticate_user (s : AppState) (username password : String) :
    Except HTTPException UserInDB :=
  match lookupDb s.users_db username with
  | some entry =>
      if entry.password = password then
        Except.ok ⟨entry.id, username, password⟩
      else
        Except.error ⟨401, "Invalid credentials"⟩
  | none => Except.error ⟨401, "Invalid credentials"⟩

/-- `POST /register`: rejects a duplicate username with
`HTTPException(400, "Username already exists")`; otherwise draws a fresh id,
stores `{"id": user_id, "password": password}` under the username
(a new dict key is appended in insertion order) and returns the `UserInDB`. -/
def register (s : AppState) (username password : String) :
    Except HTTPException UserInDB × AppState :=
  if (lookupDb s.users_db username).isSome then
    (Except.error ⟨400, "Username already exists"⟩, s)
  else
    let user_id := s.nextUuid
    (Except.ok ⟨user_id, username, password⟩,
     { s with
        users_db := s.users_db ++ [(username, ⟨user_id, password⟩)]
        nextUuid := s.nextUuid + 1 })

/-- `POST /login`: authenticates, then returns the greeting
`f"Welcome, {username}!"`.  Mutates nothing. -/
def login (s : AppState) (username password : String) :
    Except HTTPException String × AppState :=
  match authenticate_user s username password with
  | Except.error e => (Except.error e, s)
  | Except.ok _ => (Except.ok ("Welcome, " ++ username ++ "!"), s)

/-- `POST /posts`: raises `HTTPException(404, "User not found")` for an
unknown username; otherwise draws a fresh post id, reads the clock, stores
`{"content": ..., "username": ..., "created_at": ...}` under the post id and
returns `{**post.dict(), "created_at": created_at}`. -/
def create_post (s : AppState) (content username : String) :
    Except HTTPException CreatePostResponse × AppState :=
  if (lookupDb s.users_db username).isSome then
    let post_id := s.nextUuid
    let created_at := s.clock
    (Except.ok ⟨content, username, created_at⟩,
     { s with
        posts_db := s.posts_db ++ [(post_id, ⟨content, username, created_at⟩)]
        nextUuid := s.nextUuid + 1 })
  else
    (Except.error ⟨404, "User not found"⟩, s)

/-- `GET /posts`: projects every stored post, in the insertion order of
`posts_db`, to `Post(content, username)`.  Mutates nothing. -/
def get_posts (s : AppState) : List Post × AppState :=
  (s.posts_db.map (fun p => ⟨p.2.content, p.2.username⟩), s)

/-- One HTTP request to the service. -/
inductive Request : Type
  | register (username password : String)
  | login (username password : String)
  | createPost (content username : String)
  | listPosts
deriving DecidableEq, Repr

/-- The state after handling one request (the response is dropped). -/
def applyRequest (s : AppState) : Request → AppState
  | Request.register u p => (register s u p).2
  | Request.login u p => (login s u p).2
  | Request.createPost c u => (create_post s c u).2
  | Request.listPosts => (get_posts s).2

/-- Advance the wall clock (`datetime.now()` moves between requests). -/
def setClock (s : AppState) (c : Nat) : AppState := { s with clock := c }

/-- States the service can be in: the empty stores at process start, then
any sequence of requests; the wall clock may change arbitrarily between
requests. -/
inductive Reachable : AppState → Prop
  | init (clock : Nat) :
      Reachable { users_db := [], posts_db := [], nextUuid := 0, clock := clock }
  | step (s : AppState) (r : Request) (clock : Nat) :
      Reachable s → Reachable (setClock (applyRequest s r) clock)

/-- Every id already present in either store is below the id supply, so the
next generated id collides with nothing. -/
def IdsFresh (s : AppState) : Prop :=
  (∀ e ∈ s.users_db, e.2.id < s.nextUuid) ∧
  (∀ e ∈ s.posts_db, e.1 < s.nextUuid)

/-- The state at process start with the clock at 0. -/
def W0 : AppState := { users_db := [], posts_db := [], nextUuid := 0, clock := 0 }

/-- The state after registering user "bob" with password "secret". -/
def W1 : AppState := setClock (applyRequest W0 (Request.register "bob" "secret")) 5

/-- The state after "bob" then posts "hello world". -/
def W2 : AppState := setClock (applyRequest W1 (Request.createPost "hello world" "bob")) 7

@[simp] theorem setClock_users_db (s : AppState) (c : Nat) :
    (setClock s c).users_db = s.users_db := rfl

@[simp] theorem setClock_posts_db (s : AppState) (c : Nat) :
    (setClock s c).posts_db = s.posts_db := rfl

@[simp] theorem setClock_nextUuid (s : AppState) (c : Nat) :
    (setClock s c).nextUuid = s.nextUuid := rfl

theorem W0_reachable : Reachable W0 := Reachable.init 0

theorem W1_reachable : Reachable W1 :=
  Reachable.step W0 (Request.register "bob" "secret") 5 W0_reachable

theorem W2_reachable : Reachable W2 :=
  Reachable.step W1 (Request.createPost "hello world" "bob") 7 W1_reachable

/-! ### Lemmas about association-list lookup -/

theorem lookupDb_append_some {α β : Type} [DecidableEq α]
    {l : List (α × β)} (l2 : List (α × β)) {k : α} {v : β}
    (h : lookupDb l k = some v) : lookupDb (l ++ l2) k = some v := by
  induction l with
  | nil => simp [lookupDb] at h
  | cons hd tl ih =>
      obtain ⟨k0, v0⟩ := hd
      by_cases hk : k0 = k
      · simp [lookupDb, hk] at h ⊢
        exact h
      · simp [lookupDb, hk] at h ⊢
        exact ih h

theorem lookupDb_append_none {α β : Type} [DecidableEq α]
    {l : List (α × β)} (l2 : List (α × β)) {k : α}
    (h : lookupDb l k = none) : lookupDb (l ++ l2) k = lookupDb l2 k := by
  induction l with
  | nil => simp
  | cons hd tl ih =>
      obtain ⟨k0, v0⟩ := hd
      by_cases hk : k0 = k
      · simp [lookupDb, hk] at h
      · simp [lookupDb, hk] at h ⊢
        exact ih h

theorem lookupDb_mem {α β : Type} [DecidableEq α]
    {l : List (α × β)} {k : α} {v : β}
    (h : lookupDb l k = some v) : (k, v) ∈ l := by
  induction l with
  | nil => simp [lookupDb] at h
  | cons hd tl ih =>
      obtain ⟨k0, v0⟩ := hd
      by_cases hk : k0 = k
      · simp [lookupDb, hk] at h
        simp [hk, h]
      · simp [lookupDb, hk] at h
        exact List.mem_cons_of_mem _ (ih h)

theorem lookupDb_none_iff {α β : Type} [DecidableEq α]
    {l : List (α × β)} {k : α} :
    lookupDb l k = none ↔ k ∉ l.map Prod.fst := by
  induction l with
  | nil => simp [lookupDb]
  | cons hd tl ih =>
      obtain ⟨k0, v0⟩ := hd
      by_cases hk : k0 = k
      · simp [lookupDb, hk]
      · simp only [lookupDb, hk, if_false, List.map_cons, List.mem_cons, ih]
        constructor
        · intro h hor
          rcases hor with hor | hor
          · exact hk hor.symm
          · exact h hor
        · intro h hmem
          exact h (Or.inr hmem)

theorem lookupDb_isSome_append {α β : Type} [DecidableEq α]
    {l : List (α × β)} (l2 : List (α × β)) {k : α}
    (h : (lookupDb l k).isSome = true) :
    (lookupDb (l ++ l2) k).isSome = true := by
  obtain ⟨v, hv⟩ := Option.isSome_iff_exists.mp h
  rw [lookupDb_append_some l2 hv]
  rfl

/-! ### How each request transforms the state -/

theorem applyRequest_register_some {s : AppState} {u : String} (p : String)
    (h : (lookupDb s.users_db u).isSome = true) :
    applyRequest s (Request.register u p) = s := by
  simp [applyRequest, register, h]

theorem applyRequest_register_none {s : AppState} {u : String} (p : String)
    (h : lookupDb s.users_db u = none) :
    applyRequest s (Request.register u p) =
      { s with
          users_db := s.users_db ++ [(u, ⟨s.nextUuid, p⟩)]
          nextUuid := s.nextUuid + 1 } := by
  simp [applyRequest, register, h]

theorem applyRequest_login (s : AppState) (u p : String) :
    applyRequest s (Request.login u p) = s := by
  cases h : authenticate_user s u p <;> simp [applyRequest, login, h]

theorem applyRequest_createPost_some {s : AppState} {u : String} (c : String)
    (h : (lookupDb s.users_db u).isSome = true) :
    applyRequest s (Request.createPost c u) =
      { s with
          posts_db := s.posts_db ++ [(s.nextUuid, ⟨c, u, s.clock⟩)]
          nextUuid := s.nextUuid + 1 } := by
  simp [applyRequest, create_post, h]

theorem applyRequest_createPost_none {s : AppState} {u : String} (c : String)
    (h : lookupDb s.users_db u = none) :
    applyRequest s (Request.createPost c u) = s := by
  simp [applyRequest, create_post, h]

theorem applyRequest_listPosts (s : AppState) :
    applyRequest s Request.listPosts = s := rfl

/-! ### Reachability invariants -/

theorem idsFresh_reachable {s : AppState} (h : Reachable s) : IdsFresh s := by
  induction h with
  | init clock => exact ⟨by simp, by simp⟩
  | step s r clock _ ih =>
      obtain ⟨hu, hp⟩ := ih
      simp only [IdsFresh, setClock_users_db, setClock_posts_db, setClock_nextUuid]
      cases r with
      | register u p =>
          cases hreg : lookupDb s.users_db u with
          | some entry =>
              rw [applyRequest_register_some p (by simp [hreg])]
              exact ⟨hu, hp⟩
          | none =>
              rw [applyRequest_register_none p hreg]
              constructor
              · intro e he
                simp at he
                rcases he with he | he
                · exact Nat.lt_succ_of_lt (hu e he)
                · simp [he]
              · intro e he
                exact Nat.lt_succ_of_lt (hp e he)
      | login u p =>
          rw [applyRequest_login]
          exact ⟨hu, hp⟩
      | createPost c u =>
          cases hreg : lookupDb s.users_db u with
          | some entry =>
              rw [applyRequest_createPost_some c (by simp [hreg])]
              constructor
              · intro e he
                exact Nat.lt_succ_of_lt (hu e he)
              · intro e he
                simp at he
                rcases he with he | he
                · exact Nat.lt_succ_of_lt (hp e he)
                · simp [he]
          | none =>
              rw [applyRequest_createPost_none c hreg]
              exact ⟨hu, hp⟩
      | listPosts =>
          rw [applyRequest_listPosts]
          exact ⟨hu, hp⟩

/-- The User Store never maps one username to two records. -/
theorem users_nodup_reachable {s : AppState} (h : Reachable s) :
    (s.users_db.map Prod.fst).Nodup := by
  induction h with
  | init clock => simp
  | step s r clock _ ih =>
      simp only [setClock_users_db]
      cases r with
      | register u p =>
          cases hreg : lookupDb s.users_db u with
          | some entry =>
              rw [applyRequest_register_some p (by simp [hreg])]
              exact ih
          | none =>
              have hnotin : u ∉ s.users_db.map Prod.fst :=
                lookupDb_none_iff.mp hreg
              rw [applyRequest_register_none p hreg]
              simp only [List.map_append, List.map_cons, List.map_nil]
              exact List.Nodup.append ih (List.nodup_singleton u)
                (by simpa [List.disjoint_singleton] using hnotin)
      | login u p =>
          rw [applyRequest_login]
          exact ih
      | createPost c u =>
          cases hreg : lookupDb s.users_db u with
          | some entry =>
              rw [applyRequest_createPost_some c (by simp [hreg])]
              exact ih
          | none =>
              rw [applyRequest_createPost_none c hreg]
              exact ih
      | listPosts =>
          rw [applyRequest_listPosts]
          exact ih

/-- Every stored post's username is a registered user. -/
theorem posts_ref_reachable {s : AppState} (h : Reachable s) :
    ∀ e ∈ s.posts_db, (lookupDb s.users_db e.2.username).isSome = true := by
  induction h with
  | init clock => simp
  | step s r clock _ ih =>
      simp only [setClock_users_db, setClock_posts_db]
      cases r with
      | register u p =>
          cases hreg : lookupDb s.users_db u with
          | some entry =>
              rw [applyRequest_register_some p (by simp [hreg])]
              exact ih
          | none =>
              rw [applyRequest_register_none p hreg]
              intro e he
              exact lookupDb_isSome_append _ (ih e he)
      | login u p =>
          rw [applyRequest_login]
          exact ih
      | createPost c u =>
          cases hreg : lookupDb s.users_db u with
          | some entry =>
              rw [applyRequest_createPost_some c (by simp [hreg])]
              intro e he
              simp at he
              rcases he with he | he
              · exact ih e he
              · simp [he, hreg]
          | none =>
              rw [applyRequest_createPost_none c hreg]
              exact ih
      | listPosts =>
          rw [applyRequest_listPosts]
          exact ih

theorem lookupDb_eq_none_of_keys_lt {l : List (Nat × PostEntry)} {n : Nat}
    (h : ∀ e ∈ l, e.1 < n) : lookupDb l n = none := by
  cases hlook : lookupDb l n with
  | none => rfl
  | some v =>
      have hmem := lookupDb_mem hlook
      have := h (n, v) hmem
      exact absurd this (lt_irrefl n)

/-! ### Claim theorems -/

/-- C1: for every create-post request whose username is registered, the
success response is exactly `{content, username, created_at}` — the handler
returns `{**post.dict(), "created_at": created_at}` — and its `created_at`
field is the very timestamp recorded for the post stored under the fresh
post id. -/
theorem create_post_response_fields (s : AppState) (c u : String)
    (hr : Reachable s) (h : (lookupDb s.users_db u).isSome = true) :
    (create_post s c u).1 =
      Except.ok { content := c, username := u, created_at := s.clock } ∧
    lookupDb (create_post s c u).2.posts_db s.nextUuid =
      some { content := c, username := u, created_at := s.clock } := by
  have hfresh : lookupDb s.posts_db s.nextUuid = none :=
    lookupDb_eq_none_of_keys_lt (idsFresh_reachable hr).2
  constructor
  · simp [create_post, h]
  · simp only [create_post, h, if_true]
    rw [lookupDb_append_none _ hfresh]
    simp [lookupDb]

/-- C1 witness: in the state where "bob" is registered, posting as "bob"
returns `{content, username, created_at}` with the stored timestamp. -/
theorem create_post_response_fields_witness :
    (lookupDb W1.users_db "bob").isSome = true ∧
    ((create_post W1 "hello world" "bob").1 =
        Except.ok { content := "hello world", username := "bob", created_at := 5 } ∧
      lookupDb (create_post W1 "hello world" "bob").2.posts_db 1 =
        some { content := "hello world", username := "bob", created_at := 5 }) :=
  ⟨rfl, create_post_response_fields W1 "hello world" "bob" W1_reachable rfl⟩

/-- C2: registration rejects a username already in the User Store with a
Conflict error (HTTP 400) and leaves the state unchanged; otherwise it draws
an id equal to no existing user's id, appends `{id, password}` under the
username, and returns `{id, username, password}` with that fresh id and the
supplied username and password. -/
theorem register_spec (s : AppState) (u p : String) (hr : Reachable s) :
    (∀ entry, lookupDb s.users_db u = some entry →
       register s u p = (Except.error ⟨400, "Username already exists"⟩, s)) ∧
    (lookupDb s.users_db u = none →
       (register s u p).1 = Except.ok { id := s.nextUuid, username := u, password := p } ∧
       (∀ e ∈ s.users_db, e.2.id ≠ s.nextUuid) ∧
       (register s u p).2.users_db =
         s.users_db ++ [(u, { id := s.nextUuid, password := p })]) := by
  constructor
  · intro entry hsome
    simp [register, hsome]
  · intro hnone
    refine ⟨by simp [register, hnone], ?_, by simp [register, hnone]⟩
    intro e he
    exact Nat.ne_of_lt ((idsFresh_reachable hr).1 e he)

/-- C2 witness: in the state where only "bob" is registered, registering
"bob" again yields the 400 Conflict and registering "alice" succeeds with a
fresh id. -/
theorem register_spec_witness :
    (register W1 "bob" "x" = (Except.error ⟨400, "Username already exists"⟩, W1)) ∧
    ((register W1 "alice" "pw1").1 =
        Except.ok { id := 1, username := "alice", password := "pw1" } ∧
      (∀ e ∈ W1.users_db, e.2.id ≠ 1) ∧
      (register W1 "alice" "pw1").2.users_db =
        W1.users_db ++ [("alice", { id := 1, password := "pw1" })]) :=
  ⟨(register_spec W1 "bob" "x" W1_reachable).1 ⟨0, "secret"⟩ rfl,
   (register_spec W1 "alice" "pw1" W1_reachable).2 rfl⟩

/-- C3: login fails (with `HTTPException(401, "Invalid credentials")`) iff
the username is absent from the User Store or the stored password differs
from the supplied one; otherwise it succeeds with the greeting
`"Welcome, {username}!"`, which contains the username. -/
theorem login_spec (s : AppState) (u p : String) :
    ((∃ e, (login s u p).1 = Except.error e) ↔
       lookupDb s.users_db u = none ∨
         ∃ entry, lookupDb s.users_db u = some entry ∧ entry.password ≠ p) ∧
    (∀ e, (login s u p).1 = Except.error e → e = ⟨401, "Invalid credentials"⟩) ∧
    (∀ m, (login s u p).1 = Except.ok m →
       m = "Welcome, " ++ u ++ "!" ∧ ∃ a b, m = a ++ u ++ b) := by
  refine ⟨?_, ?_, ?_⟩
  · cases hlook : lookupDb s.users_db u with
    | none =>
        simp [login, authenticate_user, hlook]
    | some entry =>
        by_cases hpw : entry.password = p
        · simp [login, authenticate_user, hlook, hpw]
        · simp [login, authenticate_user, hlook, hpw]
  · intro e he
    cases hlook : lookupDb s.users_db u with
    | none =>
        simp [login, authenticate_user, hlook] at he
        exact he.symm
    | some entry =>
        by_cases hpw : entry.password = p
        · simp [login, authenticate_user, hlook, hpw] at he
        · simp [login, authenticate_user, hlook, hpw] at he
          exact he.symm
  · intro m hm
    cases hlook : lookupDb s.users_db u with
    | none => simp [login, authenticate_user, hlook] at hm
    | some entry =>
        by_cases hpw : entry.password = p
        · simp [login, authenticate_user, hlook, hpw] at hm
          exact ⟨hm.symm, "Welcome, ", "!", hm.symm⟩
        · simp [login, authenticate_user, hlook, hpw] at hm

/-- C3 witness: with "bob"/"secret" registered, login with the right
password greets "bob" and the greeting contains the username, and login with
a wrong password yields the 401 error. -/
theorem login_spec_witness :
    ("Welcome, bob!" = "Welcome, " ++ "bob" ++ "!" ∧
      ∃ a b, "Welcome, bob!" = a ++ "bob" ++ b) ∧
    ((⟨401, "Invalid credentials"⟩ : HTTPException) = ⟨401, "Invalid credentials"⟩) ∧
    (∃ e, (login W1 "bob" "wrong").1 = Except.error e) :=
  ⟨(login_spec W1 "bob" "secret").2.2 "Welcome, bob!" rfl,
   (login_spec W1 "bob" "wrong").2.1 ⟨401, "Invalid credentials"⟩ rfl,
   (login_spec W1 "bob" "wrong").1.mpr
     (Or.inr ⟨⟨0, "secret"⟩, rfl, by simp⟩)⟩

/-- C4: create-post for an unregistered username fails with
`HTTPException(404, "User not found")` and stores nothing (the state is
unchanged); for a registered username it appends `{content, username,
created_at}` to the Post Store under a post id distinct from every existing
post id, with `created_at` the current time. -/
theorem create_post_spec (s : AppState) (c u : String) (hr : Reachable s) :
    (lookupDb s.users_db u = none →
       create_post s c u = (Except.error ⟨404, "User not found"⟩, s)) ∧
    (∀ entry, lookupDb s.users_db u = some entry →
       (create_post s c u).2.posts_db =
         s.posts_db ++ [(s.nextUuid, { content := c, username := u, created_at := s.clock })] ∧
       (∀ e ∈ s.posts_db, e.1 ≠ s.nextUuid)) := by
  constructor
  · intro hnone
    simp [create_post, hnone]
  · intro entry hsome
    refine ⟨by simp [create_post, hsome], ?_⟩
    intro e he
    exact Nat.ne_of_lt ((idsFresh_reachable hr).2 e he)

/-- C4 witness: with only "bob" registered, posting as "nobody" yields the
404 error and leaves the state untouched, while posting as "bob" appends the
post under the fresh id 1. -/
theorem create_post_spec_witness :
    (create_post W1 "hi" "nobody" = (Except.error ⟨404, "User not found"⟩, W1)) ∧
    ((create_post W1 "hello world" "bob").2.posts_db =
        W1.posts_db ++ [(1, { content := "hello world", username := "bob", created_at := 5 })] ∧
      (∀ e ∈ W1.posts_db, e.1 ≠ 1)) :=
  ⟨(create_post_spec W1 "hi" "nobody" W1_reachable).1 rfl,
   (create_post_spec W1 "hello world" "bob" W1_reachable).2 ⟨0, "secret"⟩ rfl⟩

/-- C5: list-posts returns one `{content, username}` entry per stored post,
in the insertion order of the Post Store, with the creation timestamp
dropped; the empty store yields the empty list. -/
theorem get_posts_spec (s : AppState) :
    (get_posts s).1.length = s.posts_db.length ∧
    (∀ i, (get_posts s).1.get? i =
       (s.posts_db.get? i).map fun e =>
         { content := e.2.content, username := e.2.username }) ∧
    (s.posts_db = [] → (get_posts s).1 = []) := by
  refine ⟨by simp [get_posts], ?_, ?_⟩
  · intro i
    simp [get_posts]
  · intro h
    simp [get_posts, h]

/-- C5 witness: after "bob" posts "hello world", listing returns exactly its
projection at index 0; with empty stores, listing returns the empty list. -/
theorem get_posts_spec_witness :
    ((get_posts W2).1.get? 0 =
       (W2.posts_db.get? 0).map fun e =>
         { content := e.2.content, username := e.2.username }) ∧
    (W0.posts_db = []) ∧ ((get_posts W0).1 = []) :=
  ⟨(get_posts_spec W2).2.1 0, rfl, (get_posts_spec W0).2.2 rfl⟩

/-- C6: every erroring request leaves both stores exactly as they were:
failed register, login and create-post return the unchanged state, and
list-posts (which cannot fail) never mutates. -/
theorem ops_atomic (s : AppState) (u p c cu : String) :
    ((∃ e, (register s u p).1 = Except.error e) → (register s u p).2 = s) ∧
    ((∃ e, (login s u p).1 = Except.error e) → (login s u p).2 = s) ∧
    ((∃ e, (create_post s c cu).1 = Except.error e) → (create_post s c cu).2 = s) ∧
    (get_posts s).2 = s := by
  refine ⟨?_, ?_, ?_, rfl⟩
  · intro ⟨e, he⟩
    by_cases hreg : (lookupDb s.users_db u).isSome
    · simp [register, hreg]
    · simp [register, hreg] at he
  · intro _
    cases hauth : authenticate_user s u p <;> simp [login, hauth]
  · intro ⟨e, he⟩
    by_cases hreg : (lookupDb s.users_db cu).isSome
    · simp [create_post, hreg] at he
    · simp [create_post, hreg]

/-- C6 witness: in the state with "bob" registered, a duplicate register, a
bad login and a post by an unknown user all error and leave the state as it
was, and list-posts leaves it unchanged too. -/
theorem ops_atomic_witness :
    ((register W1 "bob" "x").2 = W1) ∧
    ((login W1 "bob" "wrong").2 = W1) ∧
    ((create_post W1 "hi" "nobody").2 = W1) ∧
    ((get_posts W1).2 = W1) :=
  ⟨(ops_atomic W1 "bob" "x" "hi" "nobody").1 ⟨⟨400, "Username already exists"⟩, rfl⟩,
   (ops_atomic W1 "bob" "wrong" "hi" "nobody").2.1 ⟨⟨401, "Invalid credentials"⟩, rfl⟩,
   (ops_atomic W1 "bob" "x" "hi" "nobody").2.2.1 ⟨⟨404, "User not found"⟩, rfl⟩,
   (ops_atomic W1 "bob" "x" "hi" "nobody").2.2.2⟩

/-- C7: in every reachable state the User Store maps each username to at
most one record, and no request modifies or removes an existing user record
— whatever a username maps to, it still maps to after any request. -/
theorem users_db_invariant (s : AppState) (hr : Reachable s) :
    (s.users_db.map Prod.fst).Nodup ∧
    (∀ r u entry, lookupDb s.users_db u = some entry →
       lookupDb (applyRequest s r).users_db u = some entry) := by
  refine ⟨users_nodup_reachable hr, ?_⟩
  intro r u entry hsome
  cases r with
  | register u0 p0 =>
      cases hreg : lookupDb s.users_db u0 with
      | some e0 => rw [applyRequest_register_some p0 (by simp [hreg])]; exact hsome
      | none =>
          rw [applyRequest_register_none p0 hreg]
          exact lookupDb_append_some _ hsome
  | login u0 p0 => rw [applyRequest_login]; exact hsome
  | createPost c0 u0 =>
      cases hreg : lookupDb s.users_db u0 with
      | some e0 => rw [applyRequest_createPost_some c0 (by simp [hreg])]; exact hsome
      | none => rw [applyRequest_createPost_none c0 hreg]; exact hsome
  | listPosts => rw [applyRequest_listPosts]; exact hsome

/-- C7 witness: the reachable state with "bob" registered has duplicate-free
usernames, and "bob"'s record survives a further register request intact. -/
theorem users_db_invariant_witness :
    (W1.users_db.map Prod.fst).Nodup ∧
    lookupDb (applyRequest W1 (Request.register "alice" "pw")).users_db "bob" =
      some { id := 0, password := "secret" } :=
  ⟨(users_db_invariant W1 W1_reachable).1,
   (users_db_invariant W1 W1_reachable).2
     (Request.register "alice" "pw") "bob" ⟨0, "secret"⟩ rfl⟩

/-- C8: in every reachable state, every stored post's username is a key of
the User Store, and no request updates or removes an existing post —
whatever a post id maps to, it still maps to after any request. -/
theorem posts_db_invariant (s : AppState) (hr : Reachable s) :
    (∀ e ∈ s.posts_db, (lookupDb s.users_db e.2.username).isSome = true) ∧
    (∀ r pid entry, lookupDb s.posts_db pid = some entry →
       lookupDb (applyRequest s r).posts_db pid = some entry) := by
  refine ⟨posts_ref_reachable hr, ?_⟩
  intro r pid entry hsome
  cases r with
  | register u0 p0 =>
      cases hreg : lookupDb s.users_db u0 with
      | some e0 => rw [applyRequest_register_some p0 (by simp [hreg])]; exact hsome
      | none => rw [applyRequest_register_none p0 hreg]; exact hsome
  | login u0 p0 => rw [applyRequest_login]; exact hsome
  | createPost c0 u0 =>
      cases hreg : lookupDb s.users_db u0 with
      | some e0 =>
          rw [applyRequest_createPost_some c0 (by simp [hreg])]
          exact lookupDb_append_some _ hsome
      | none => rw [applyRequest_createPost_none c0 hreg]; exact hsome
  | listPosts => rw [applyRequest_listPosts]; exact hsome

/-- C8 witness: in the reachable state where "bob" has posted, the post's
author is registered, and the post survives a further create-post request
intact. -/
theorem posts_db_invariant_witness :
    ((lookupDb W2.users_db "bob").isSome = true) ∧
    lookupDb (applyRequest W2 (Request.createPost "again" "bob")).posts_db 1 =
      some { content := "hello world", username := "bob", created_at := 5 } :=
  ⟨(posts_db_invariant W2 W2_reachable).1
     (1, { content := "hello world", username := "bob", created_at := 5 })
     (by simp [W2, W1, W0, applyRequest, register, create_post, lookupDb, setClock]),
   (posts_db_invariant W2 W2_reachable).2
     (Request.createPost "again" "bob") 1
     { content := "hello world", username := "bob", created_at := 5 } rfl⟩

/-- C9: from any state where "alice" is unregistered, register("alice","pw1")
succeeds, after which login("alice","pw1") succeeds and
login("alice","wrong") fails with the 401 error. -/
theorem register_login_roundtrip (s : AppState)
    (h : lookupDb s.users_db "alice" = none) :
    (∃ id, (register s "alice" "pw1").1 =
       Except.ok { id := id, username := "alice", password := "pw1" }) ∧
    (login (register s "alice" "pw1").2 "alice" "pw1").1 =
      Except.ok ("Welcome, " ++ "alice" ++ "!") ∧
    (login (register s "alice" "pw1").2 "alice" "wrong").1 =
      Except.error ⟨401, "Invalid credentials"⟩ := by
  have husers : (register s "alice" "pw1").2.users_db =
      s.users_db ++ [("alice", { id := s.nextUuid, password := "pw1" })] := by
    simp [register, h]
  have hlook : lookupDb (register s "alice" "pw1").2.users_db "alice" =
      some { id := s.nextUuid, password := "pw1" } := by
    rw [husers, lookupDb_append_none _ h]
    simp [lookupDb]
  refine ⟨⟨s.nextUuid, by simp [register, h]⟩, ?_, ?_⟩
  · simp [login, authenticate_user, hlook]
  · simp [login, authenticate_user, hlook]

/-- C9 witness: from the empty initial state the round-trip behaves as
claimed. -/
theorem register_login_roundtrip_witness :
    (lookupDb W0.users_db "alice" = none) ∧
    ((∃ id, (register W0 "alice" "pw1").1 =
        Except.ok { id := id, username := "alice", password := "pw1" }) ∧
      (login (register W0 "alice" "pw1").2 "alice" "pw1").1 =
        Except.ok ("Welcome, " ++ "alice" ++ "!") ∧
      (login (register W0 "alice" "pw1").2 "alice" "wrong").1 =
        Except.error ⟨401, "Invalid credentials"⟩) :=
  ⟨rfl, register_login_roundtrip W0 rfl⟩

/-- C10: login — whether it succeeds or fails — and list-posts leave the
whole state (both stores included) unchanged. -/
theorem login_get_posts_readonly (s : AppState) (u p : String) :
    (login s u p).2 = s ∧ (get_posts s).2 = s := by
  refine ⟨?_, rfl⟩
  cases hauth : authenticate_user s u p <;> simp [login, hauth]

end MITdemo
